import Mathlib

/-!
# Verification of the Intro-to-Deep-Learning notebook exercises

Shallow embedding of the training / validation code in
`intro-to-pytorch/Part 3 - Training Neural Networks (Exercises).ipynb` and
`intro-to-pytorch/Part 5 - Inference and Validation (Exercises).ipynb`.

Tensors are embedded as lists of rationals (`List ℚ` for vectors,
`List (List ℚ)` for batches / matrices); the framework's floating-point
arithmetic is modelled by exact rational arithmetic.  The framework
collaborators that the notebook cells call (`optimizer.zero_grad`,
`loss.backward`, `optimizer.step`, `torch.topk`, `torch.mean`, `nn.Dropout`,
`model.eval` / `model.train`) are embedded with the semantics the notebooks
themselves document in their markdown cells and printed outputs:

* "When you do multiple backwards passes with the same parameters, the
  gradients are accumulated" (Part 3);
* `x.grad` prints `None` before any backward pass and a populated tensor of
  the parameter's shape afterwards (Part 3);
* `torch.mean(equals)` raises
  `RuntimeError: mean is not implemented for type torch.ByteTensor` (Part 5);
* `model.eval()` "sets the model to evaluation mode where the dropout
  probability is 0", `model.train()` turns dropout back on (Part 5).
-/

namespace NotebookSpec

/-! ## Parameter tensors and gradient buffers (Part 3, autograd cells)

A parameter tensor carries its data and an optional gradient buffer.
A freshly constructed parameter has no gradient buffer (`None` in the
notebook's printed output). -/

/-- A parameter tensor: flattened data plus optional gradient buffer. -/
structure Param where
  data : List ℚ
  grad : Option (List ℚ)
  deriving DecidableEq, Repr

/-- A freshly constructed parameter: the gradient buffer reads as unset,
matching `print(x.grad)` → `None` before any backward pass (Part 3). -/
def freshParam (d : List ℚ) : Param := ⟨d, none⟩

/-- `optimizer.zero_grad()`: clears the gradient accumulated on a parameter.
A buffer that was never populated stays unset; a populated buffer is zeroed
in place. -/
def zeroGrad (p : Param) : Param :=
  ⟨p.data, p.grad.map (fun g => g.map (fun _ => 0))⟩

/-- Gradient accumulation, the framework semantics Part 3 documents:
"When you do multiple backwards passes with the same parameters, the
gradients are accumulated."  An unset buffer is set to the incoming
gradient; a populated buffer receives the elementwise sum. -/
def accumulate (old : Option (List ℚ)) (g : List ℚ) : List ℚ :=
  match old with
  | none => g
  | some o => List.zipWith (· + ·) o g

/-- `loss.backward()` restricted to one parameter: `g` is the gradient of
the current loss with respect to this parameter, and it is accumulated into
the buffer. -/
def backwardParam (g : List ℚ) (p : Param) : Param :=
  ⟨p.data, some (accumulate p.grad g)⟩

/-- `optimizer.step()` for `optim.SGD`: subtract the learning-rate-scaled
gradient in place; a parameter with no gradient buffer is left untouched. -/
def sgdStepParam (lr : ℚ) (p : Param) : Param :=
  match p.grad with
  | none => p
  | some g => ⟨List.zipWith (fun w gi => w - lr * gi) p.data g, some g⟩

/-- The concrete autograd example of Part 3: `z = (x**2).mean()`.  -/
def meanSq (x : List ℚ) : ℚ := (x.map (fun v => v ^ 2)).sum / x.length

/-- Gradient of `(x**2).mean()` with respect to `x`: each entry is
`2 * xᵢ / n`, which Part 3's printed output displays as `x/2` for the
`2×2` example tensor. -/
def gradMeanSq (x : List ℚ) : List ℚ := x.map (fun v => 2 * v / x.length)

theorem gradMeanSq_length (x : List ℚ) : (gradMeanSq x).length = x.length :=
  List.length_map x _

/-- Part 3's printed check: for the 4-element example tensor the gradient of
`(x**2).mean()` is `x/2`. -/
theorem gradMeanSq_four (x : List ℚ) (h : x.length = 4) :
    gradMeanSq x = x.map (fun v => v / 2) := by
  unfold gradMeanSq
  rw [h]
  apply List.map_congr_left
  intro a _
  push_cast
  ring

/-! Helper lemmas about accumulation. -/

theorem accumulate_none (g : List ℚ) : accumulate none g = g := rfl

theorem accumulate_some (o g : List ℚ) :
    accumulate (some o) g = List.zipWith (· + ·) o g := rfl

/-- Accumulating into a zeroed buffer of the right length just gives the
incoming gradient. -/
theorem accumulate_zeros (g : List ℚ) (n : ℕ) (h : g.length = n) :
    accumulate (some (List.replicate n 0)) g = g := by
  subst h
  rw [accumulate_some]
  induction g with
  | nil => rfl
  | cons a l ih =>
    simp only [List.length_cons, List.replicate_succ, List.zipWith_cons_cons, zero_add,
      List.cons.injEq, true_and]
    exact ih

/-- C2 (gradient accumulation law).
For every parameter whose buffer is cleared (unset, or zeroed to the
parameter's gradient shape) and every pair of batch gradients `g1`, `g2`
of equal shape: running `backward` twice without `zero_grad` in between
leaves the buffer holding the elementwise sum `g1 + g2`, while each pass
alone from the cleared buffer would have produced exactly `g1`
(respectively `g2`). -/
theorem grad_accumulation_law (p : Param) (g1 g2 : List ℚ)
    (hclear : p.grad = none ∨ p.grad = some (List.replicate g1.length 0))
    (hlen : g2.length = g1.length) :
    (backwardParam g2 (backwardParam g1 p)).grad
        = some (List.zipWith (· + ·) g1 g2)
    ∧ (backwardParam g1 p).grad = some g1
    ∧ (backwardParam g2 p).grad = some g2 := by
  have h1 : (backwardParam g1 p).grad = some g1 := by
    rcases hclear with h | h <;>
      simp [backwardParam, h, accumulate_none, accumulate_zeros g1 g1.length rfl]
  have h2 : (backwardParam g2 p).grad = some g2 := by
    rcases hclear with h | h <;>
      simp [backwardParam, h, accumulate_none,
        accumulate_zeros g2 g1.length hlen]
  refine ⟨?_, h1, h2⟩
  have heq : accumulate p.grad g1 = g1 := Option.some.inj (by simpa [backwardParam] using h1)
  simp [backwardParam, accumulate_some, heq]

/-- Witness for C2 at the concrete `(x**2).mean()` gradients of Part 3:
`x = [1, 2, 3, 4]` for the first pass and `x' = [2, 0, -2, 4]` for the
second. -/
theorem grad_accumulation_law_witness :
    (backwardParam (gradMeanSq [2, 0, -2, 4])
        (backwardParam (gradMeanSq [1, 2, 3, 4]) (freshParam [1, 2, 3, 4]))).grad
        = some (List.zipWith (· + ·) (gradMeanSq [1, 2, 3, 4])
            (gradMeanSq [2, 0, -2, 4])) :=
  (grad_accumulation_law (freshParam [1, 2, 3, 4])
    (gradMeanSq [1, 2, 3, 4]) (gradMeanSq [2, 0, -2, 4])
    (Or.inl rfl) (by decide)).1

/-- C6 (gradient buffers around the first backward pass).
A freshly constructed parameter's gradient buffer reads as unset; after
exactly one backward pass whose gradient has the parameter's shape, the
buffer is populated and its shape equals the parameter's shape. -/
theorem fresh_grad_then_backward (d g : List ℚ) (hlen : g.length = d.length) :
    (freshParam d).grad = none
    ∧ ∃ h, (backwardParam g (freshParam d)).grad = some h
        ∧ h.length = (backwardParam g (freshParam d)).data.length := by
  refine ⟨rfl, g, rfl, ?_⟩
  simpa [backwardParam, freshParam] using hlen

/-- Witness for C6 at the concrete Part 3 example: the `2×2` tensor
`x = [3/2, 1, 1/2, -1/4]` with the gradient of `(x**2).mean()`. -/
theorem fresh_grad_then_backward_witness :
    (freshParam [3/2, 1, 1/2, -(1/4)]).grad = none
    ∧ ∃ h, (backwardParam (gradMeanSq [3/2, 1, 1/2, -(1/4)])
          (freshParam [3/2, 1, 1/2, -(1/4)])).grad = some h
        ∧ h.length = (backwardParam (gradMeanSq [3/2, 1, 1/2, -(1/4)])
          (freshParam [3/2, 1, 1/2, -(1/4)])).data.length :=
  fresh_grad_then_backward [3/2, 1, 1/2, -(1/4)]
    (gradMeanSq [3/2, 1, 1/2, -(1/4)]) (by decide)

/-! ## The training loop (Part 3, "Training for real")

The solution cell:
```
for images, labels in trainloader:
    images = images.view(images.shape[0], -1)
    optimizer.zero_grad()
    logits = model.forward(images)
    loss = criterion(logits, labels)
    loss.backward()
    optimizer.step()
    running_loss += loss.item()
```
The model and the autograd engine are the framework collaborators; the
forward function and the gradient function (what `loss.backward()` computes
for each parameter) are passed in as parameters of the embedding. -/

/-- One mini-batch: flattened images and integer class labels. -/
structure Batch where
  images : List (List ℚ)
  labels : List ℕ
  deriving DecidableEq, Repr

/-- `nn.NLLLoss()` on log-probabilities: the negative log-likelihood of the
true label, averaged over the batch (the default `reduction='mean'`). -/
def nllLoss (logps : List (List ℚ)) (labels : List ℕ) : ℚ :=
  let terms := List.zipWith (fun row l => -(row.getD l 0)) logps labels
  terms.sum / terms.length

/-- The data tensors of a parameter list. -/
def paramDatas (ps : List Param) : List (List ℚ) := ps.map Param.data

/-- `optimizer.zero_grad()` over all model parameters. -/
def zeroGradAll (ps : List Param) : List Param := ps.map zeroGrad

/-- `loss.backward()` over all model parameters: `gs` holds the gradient of
the loss for each parameter in order. -/
def backwardAll (gs : List (List ℚ)) (ps : List Param) : List Param :=
  List.zipWith backwardParam gs ps

/-- `optimizer.step()` for SGD over all model parameters. -/
def sgdStepAll (lr : ℚ) (ps : List Param) : List Param :=
  ps.map (sgdStepParam lr)

/-- The training pass of Part 3's solution cell, for one batch:
`zero_grad`, forward, `NLLLoss`, `backward`, `step`; the scalar loss is the
only value produced beyond the mutated parameters.
`forward` maps current parameter data and a batch of images to
log-probabilities; `gradFn` is the reverse-mode gradient of the loss,
per parameter. -/
def trainingStep (forward : List (List ℚ) → List (List ℚ) → List (List ℚ))
    (gradFn : List (List ℚ) → Batch → List (List ℚ)) (lr : ℚ)
    (ps : List Param) (b : Batch) : List Param × ℚ :=
  let ps1 := zeroGradAll ps
  let logits := forward (paramDatas ps1) b.images
  let loss := nllLoss logits b.labels
  let ps2 := backwardAll (gradFn (paramDatas ps1) b) ps1
  let ps3 := sgdStepAll lr ps2
  (ps3, loss)

/-- One epoch of the training loop: fold the training pass over the batches,
adding each scalar loss to `running_loss` (started at 0). -/
def epochLoop (forward : List (List ℚ) → List (List ℚ) → List (List ℚ))
    (gradFn : List (List ℚ) → Batch → List (List ℚ)) (lr : ℚ)
    (ps : List Param) (batches : List Batch) : List Param × ℚ :=
  batches.foldl (fun acc b =>
    let r := trainingStep forward gradFn lr acc.1 b
    (r.1, acc.2 + r.2)) (ps, 0)

/-- The per-batch scalar losses produced along one epoch. -/
def lossTrace (forward : List (List ℚ) → List (List ℚ) → List (List ℚ))
    (gradFn : List (List ℚ) → Batch → List (List ℚ)) (lr : ℚ) :
    List Param → List Batch → List ℚ
  | _, [] => []
  | ps, b :: bs =>
      (trainingStep forward gradFn lr ps b).2 ::
        lossTrace forward gradFn lr (trainingStep forward gradFn lr ps b).1 bs

theorem paramDatas_zeroGradAll (ps : List Param) :
    paramDatas (zeroGradAll ps) = paramDatas ps := by
  simp [paramDatas, zeroGradAll, zeroGrad]

/-- After `zero_grad`, one backward pass installs exactly the incoming
gradient, whatever the previous buffer held (provided, as the framework
guarantees, that any previous buffer has the gradient's shape). -/
theorem backward_zeroGrad (g : List ℚ) (p : Param)
    (hold : ∀ o, p.grad = some o → o.length = g.length) :
    backwardParam g (zeroGrad p) = ⟨p.data, some g⟩ := by
  cases hgr : p.grad with
  | none => simp [backwardParam, zeroGrad, hgr, accumulate_none]
  | some o =>
    have hl : o.length = g.length := hold o hgr
    simp [backwardParam, zeroGrad, hgr, hl, accumulate_zeros g g.length rfl]

/-- After `zero_grad`, backward-then-step rewrites every parameter with the
SGD update for exactly the incoming per-parameter gradients. -/
theorem sgd_backward_zeroGrad (lr : ℚ) (gs : List (List ℚ)) (ps : List Param)
    (hshapes : List.Forall₂
      (fun g p => ∀ o, p.grad = some o → o.length = g.length) gs ps) :
    sgdStepAll lr (backwardAll gs (zeroGradAll ps))
      = List.zipWith
          (fun g p => Param.mk
            (List.zipWith (fun w gv => w - lr * gv) p.data g) (some g))
          gs ps := by
  induction hshapes with
  | nil => rfl
  | @cons g p gs' ps' hgp _ ih =>
    show sgdStepParam lr (backwardParam g (zeroGrad p))
        :: sgdStepAll lr (backwardAll gs' (zeroGradAll ps')) = _
    rw [backward_zeroGrad g p hgp, ih]
    rfl

theorem epochLoop_running_loss_aux
    (forward : List (List ℚ) → List (List ℚ) → List (List ℚ))
    (gradFn : List (List ℚ) → Batch → List (List ℚ)) (lr : ℚ)
    (bs : List Batch) : ∀ (ps : List Param) (a : ℚ),
    (bs.foldl (fun acc b =>
      let r := trainingStep forward gradFn lr acc.1 b
      (r.1, acc.2 + r.2)) (ps, a)).2
      = a + (lossTrace forward gradFn lr ps bs).sum := by
  induction bs with
  | nil => intro ps a; simp [lossTrace]
  | cons b bs ih =>
    intro ps a
    simp only [List.foldl_cons, lossTrace, List.sum_cons]
    rw [ih]
    ring

/-- C1 (the training step).
For every parameter state (with any stale gradient buffers of the right
shapes) and every batch, the training pass:
* yields as its scalar the negative log-likelihood of the true labels under
  the model's log-probability output, averaged over the batch;
* leaves every parameter updated in place by the SGD rule
  `w ← w − lr·g` where `g` is exactly this batch's gradient (the cleared
  buffers mean no stale gradient enters the update), with the buffer
  holding `g`;
* and over an epoch, the running loss is exactly the sum of the per-batch
  scalar losses — the only value each step contributes beyond the mutated
  parameters. -/
theorem training_step_contract
    (forward : List (List ℚ) → List (List ℚ) → List (List ℚ))
    (gradFn : List (List ℚ) → Batch → List (List ℚ)) (lr : ℚ)
    (ps : List Param) (b : Batch) (batches : List Batch)
    (hshapes : List.Forall₂
      (fun g p => ∀ o, p.grad = some o → o.length = g.length)
      (gradFn (paramDatas ps) b) ps) :
    (trainingStep forward gradFn lr ps b).2
      = nllLoss (forward (paramDatas ps) b.images) b.labels
    ∧ (trainingStep forward gradFn lr ps b).1
      = List.zipWith
          (fun g p => Param.mk
            (List.zipWith (fun w gv => w - lr * gv) p.data g) (some g))
          (gradFn (paramDatas ps) b) ps
    ∧ (epochLoop forward gradFn lr ps batches).2
      = (lossTrace forward gradFn lr ps batches).sum := by
  refine ⟨by simp [trainingStep, paramDatas_zeroGradAll], ?_, ?_⟩
  · show sgdStepAll lr
        (backwardAll (gradFn (paramDatas (zeroGradAll ps)) b) (zeroGradAll ps)) = _
    rw [paramDatas_zeroGradAll]
    exact sgd_backward_zeroGrad lr _ ps hshapes
  · have := epochLoop_running_loss_aux forward gradFn lr batches ps 0
    simpa [epochLoop] using this

/-- Witness for C1: a one-parameter model on a one-image batch, with the
constant-gradient function `[[1, 1]]`. -/
theorem training_step_contract_witness :
    (trainingStep (fun _ imgs => imgs.map (fun _ => [0, -1]))
        (fun ds _ => ds.map (fun d => d.map (fun _ => 1))) (1/2)
        [freshParam [1, 2]] ⟨[[1, 0]], [1]⟩).2
      = nllLoss ((fun (_ : List (List ℚ)) (imgs : List (List ℚ)) =>
          imgs.map (fun _ => ([0, -1] : List ℚ)))
          (paramDatas [freshParam [1, 2]]) [[1, 0]]) [1]
    ∧ (trainingStep (fun _ imgs => imgs.map (fun _ => [0, -1]))
        (fun ds _ => ds.map (fun d => d.map (fun _ => 1))) (1/2)
        [freshParam [1, 2]] ⟨[[1, 0]], [1]⟩).1
      = List.zipWith
          (fun g p => Param.mk
            (List.zipWith (fun w gv => w - (1/2) * gv) p.data g) (some g))
          ((fun (ds : List (List ℚ)) (_ : Batch) =>
            ds.map (fun d => d.map (fun _ => (1 : ℚ))))
            (paramDatas [freshParam [1, 2]]) ⟨[[1, 0]], [1]⟩)
          [freshParam [1, 2]]
    ∧ (epochLoop (fun _ imgs => imgs.map (fun _ => [0, -1]))
        (fun ds _ => ds.map (fun d => d.map (fun _ => 1))) (1/2)
        [freshParam [1, 2]] [⟨[[1, 0]], [1]⟩]).2
      = (lossTrace (fun _ imgs => imgs.map (fun _ => [0, -1]))
        (fun ds _ => ds.map (fun d => d.map (fun _ => 1))) (1/2)
        [freshParam [1, 2]] [⟨[[1, 0]], [1]⟩]).sum :=
  training_step_contract _ _ (1/2) [freshParam [1, 2]] ⟨[[1, 0]], [1]⟩
    [⟨[[1, 0]], [1]⟩]
    (List.Forall₂.cons (fun o ho => by simp [freshParam] at ho)
      List.Forall₂.nil)

/-! ## Top-1 prediction (`torch.topk(·, k=1)`, Part 5)

Part 5 takes the top-1 class once on probabilities (`ps.topk(1, dim=1)`)
and once directly on log-probabilities (`torch.topk(log_test_ps, k=1)`). -/

/-- Largest entry of a row, `none` on the empty row. -/
def maxVal : List ℚ → Option ℚ
  | [] => none
  | x :: xs =>
    some (match maxVal xs with
          | none => x
          | some m => max x m)

/-- The class index returned by `torch.topk(row, k=1)`: the index of the
largest entry (first occurrence on ties). -/
def argTop1 : List ℚ → ℕ
  | [] => 0
  | x :: xs =>
    match maxVal xs with
    | none => 0
    | some m => if m ≤ x then 0 else argTop1 xs + 1

theorem maxVal_map (f : ℚ → ℚ) (hf : Monotone f) (l : List ℚ) :
    maxVal (l.map f) = (maxVal l).map f := by
  induction l with
  | nil => rfl
  | cons x xs ih =>
    simp only [List.map_cons, maxVal, ih]
    cases maxVal xs with
    | none => rfl
    | some m => simp [hf.map_max]

/-- Taking the top-1 index commutes with any strictly monotone rescaling of
the scores. -/
theorem argTop1_map (f : ℚ → ℚ) (hf : StrictMono f) (l : List ℚ) :
    argTop1 (l.map f) = argTop1 l := by
  induction l with
  | nil => rfl
  | cons x xs ih =>
    simp only [List.map_cons, argTop1, maxVal_map f hf.monotone xs]
    cases maxVal xs with
    | none => rfl
    | some m =>
      simp only [Option.map_some']
      by_cases h : m ≤ x
      · rw [if_pos h, if_pos (hf.monotone h)]
      · rw [if_neg h, if_neg (fun hc => h ((hf.le_iff_le).mp hc)), ih]

/-- C7 (arg-max invariance).
For every batch of rows of scores and every strictly monotone rescaling `f`
of the scores — such as the `exp` map from log-probabilities to
probabilities — the per-example top-1 class index computed on the rescaled
scores equals the one computed by `topk(k=1)` directly on the raw scores. -/
theorem topk_argmax_invariant (f : ℚ → ℚ) (hf : StrictMono f)
    (batch : List (List ℚ)) :
    batch.map (fun row => argTop1 (row.map f)) = batch.map argTop1 :=
  List.map_congr_left (fun row _ => argTop1_map f hf row)

/-- Witness for C7: the strictly monotone map `q ↦ 3q + 1` on a concrete
two-example batch of log-probabilities. -/
theorem topk_argmax_invariant_witness :
    [[0, -1, -3], [-2, -1, -5]].map
        (fun row => argTop1 (row.map (fun q => 3 * q + 1)))
      = [[(0 : ℚ), -1, -3], [-2, -1, -5]].map argTop1 :=
  topk_argmax_invariant (fun q => 3 * q + 1)
    (fun a b h => by simpa using (by linarith : 3 * a + 1 < 3 * b + 1))
    [[0, -1, -3], [-2, -1, -5]]

/-! ## Batch accuracy and the two validation loops (Part 5)

Both validation loops compute, per batch,
`top_p, top_class = torch.topk(log_ps, k=1)`,
`compare = top_class == labels.view(*top_class.shape)`,
`torch.mean(compare.type(torch.FloatTensor))`.
The first loop (cell with `accuracy = torch.mean(...)`) assigns the batch
statistic; the dropout loop (cell with `accuracy += torch.mean(...)`)
accumulates it and divides by `len(testloader)` at the end. -/

/-- Indicator of a boolean comparison entry, the value of
`.type(torch.FloatTensor)` on one byte. -/
def boolInd (b : Bool) : ℚ := if b then 1 else 0

/-- `top_class == labels.view(*top_class.shape)` flattened to one boolean
per example. -/
def comparePredictions (logps : List (List ℚ)) (labels : List ℕ) : List Bool :=
  List.zipWith (fun row l => argTop1 row == l) logps labels

/-- The per-batch accuracy statistic
`torch.mean(compare.type(torch.FloatTensor))`. -/
def batchAccuracy (logps : List (List ℚ)) (labels : List ℕ) : ℚ :=
  let c := comparePredictions logps labels
  (c.map boolInd).sum / c.length

/-- The first validation loop of Part 5 (no dropout):
inside `with torch.no_grad()`, for every test batch `accuracy` is
*assigned* (`accuracy = torch.mean(...)`), and the value left after the
loop is printed.  The parameters (with their gradient buffers) are only
read. -/
def firstValidationLoop
    (forward : List (List ℚ) → List (List ℚ) → List (List ℚ))
    (ps : List Param) (batches : List Batch) : List Param × ℚ :=
  (ps, batches.foldl
    (fun _ b => batchAccuracy (forward (paramDatas ps) b.images) b.labels) 0)

/-- A whole validation pass overwrites `accuracy` each batch, so the value
after the loop is the statistic of the last batch alone. -/
theorem firstValidationLoop_last
    (forward : List (List ℚ) → List (List ℚ) → List (List ℚ))
    (ps : List Param) (bs : List Batch) (b : Batch) :
    (firstValidationLoop forward ps (bs ++ [b])).2
      = batchAccuracy (forward (paramDatas ps) b.images) b.labels := by
  simp [firstValidationLoop, List.foldl_append]

/-- C3 (validation accuracy reporting).
The claim says every validation pass reports a per-batch running count
averaged over all validation batches.  The first validation loop does not:
`accuracy = torch.mean(...)` overwrites the statistic each batch, so the
printed value is the last batch's statistic alone.  At the concrete
two-batch input below the code prints `1` while the claimed
batch-averaged accuracy is `1/2`. -/
theorem first_validation_reports_last_batch :
    (∀ (forward : List (List ℚ) → List (List ℚ) → List (List ℚ))
      (ps : List Param) (bs : List Batch) (b : Batch),
      (firstValidationLoop forward ps (bs ++ [b])).2
        = batchAccuracy (forward (paramDatas ps) b.images) b.labels)
    ∧ (firstValidationLoop (fun _ imgs => imgs) []
        [⟨[[0, 1]], [0]⟩, ⟨[[1, 0]], [0]⟩]).2 = 1
    ∧ (batchAccuracy ([[(0 : ℚ), 1]]) [0]
        + batchAccuracy ([[(1 : ℚ), 0]]) [0]) / 2 = 1 / 2 := by
  refine ⟨firstValidationLoop_last, ?_, ?_⟩
  · show (firstValidationLoop (fun _ imgs => imgs) []
        ([⟨[[0, 1]], [0]⟩] ++ [⟨[[1, 0]], [0]⟩])).2 = 1
    rw [firstValidationLoop_last]
    norm_num [batchAccuracy, comparePredictions, argTop1, maxVal, boolInd]
  · norm_num [batchAccuracy, comparePredictions, argTop1, maxVal, boolInd]

/-! ## The dropout-bearing model (Part 5, `NetworkDropOut`)

```
class NetworkDropOut(nn.Module):
    def __init__(self): ... nn.Linear(784,256) ... nn.Dropout(p=0.3)
    def forward(self, x):
        x = self.dropout(F.relu(self.fc1(x)))
        x = self.dropout(F.relu(self.fc2(x)))
        x = self.dropout(F.relu(self.fc3(x)))
        x = F.log_softmax(self.fc4(x), dim=1)
        return x
```
`nn.Dropout(p)` in training mode zeroes each unit independently with
probability `p` and rescales survivors by `1/(1-p)`; in evaluation mode it
is the identity.  The stochastic source is modelled as an explicit stream
`rand` of uniform samples in `[0, 1)`: unit `i` is dropped iff
`rand i < p`.  `F.log_softmax` is a fixed deterministic map supplied by the
framework; it is passed in as the parameter `lsm`. -/

/-- `F.relu`. -/
def relu (v : ℚ) : ℚ := max v 0

/-- Dot product of a weight row with the input. -/
def dot (r x : List ℚ) : ℚ := (List.zipWith (· * ·) r x).sum

/-- `nn.Linear`: affine map `W·x + b`, one output per weight row. -/
def linear (w : List (List ℚ)) (bias x : List ℚ) : List ℚ :=
  List.zipWith (fun row bi => dot row x + bi) w bias

/-- Training-mode dropout masking from unit index `i` on: unit `i` is
zeroed iff `rand i < pr`, survivors are rescaled by `1/(1-pr)`. -/
def dropoutMask (pr : ℚ) (rand : ℕ → ℚ) : ℕ → List ℚ → List ℚ
  | _, [] => []
  | i, v :: vs =>
      (if rand i < pr then 0 else v / (1 - pr)) :: dropoutMask pr rand (i + 1) vs

/-- `nn.Dropout(p)`: stochastic masking in training mode, identity in
evaluation mode. -/
def dropout (pr : ℚ) (training : Bool) (rand : ℕ → ℚ) (x : List ℚ) : List ℚ :=
  if training then dropoutMask pr rand 0 x else x

/-- The `NetworkDropOut` model: four affine layers, a shared dropout
probability, and the training/inference mode flag set by `model.train()` /
`model.eval()`. -/
structure NetworkDropOut where
  w1 : List (List ℚ)
  b1 : List ℚ
  w2 : List (List ℚ)
  b2 : List ℚ
  w3 : List (List ℚ)
  b3 : List ℚ
  w4 : List (List ℚ)
  b4 : List ℚ
  p : ℚ
  training : Bool

/-- `NetworkDropOut.forward`: dropout after each of the three hidden ReLU
layers, none after the output layer, then `log_softmax` (`lsm`).  Each
dropout call draws from its own slice `rand k` of the stochastic stream. -/
def NetworkDropOut.forward (net : NetworkDropOut) (lsm : List ℚ → List ℚ)
    (rand : ℕ → ℕ → ℚ) (x : List ℚ) : List ℚ :=
  let h1 := dropout net.p net.training (rand 0) ((linear net.w1 net.b1 x).map relu)
  let h2 := dropout net.p net.training (rand 1) ((linear net.w2 net.b2 h1).map relu)
  let h3 := dropout net.p net.training (rand 2) ((linear net.w3 net.b3 h2).map relu)
  lsm (linear net.w4 net.b4 h3)

/-- With `p = 0` and valid uniform samples (all `≥ 0`), training-mode
dropout masks nothing and rescales by `1/(1-0) = 1`: it is the identity. -/
theorem dropoutMask_zero (rand : ℕ → ℚ) (hr : ∀ i, 0 ≤ rand i) :
    ∀ (i : ℕ) (x : List ℚ), dropoutMask 0 rand i x = x := by
  intro i x
  induction x generalizing i with
  | nil => rfl
  | cons v vs ih =>
    show (if rand i < 0 then 0 else v / (1 - 0)) :: dropoutMask 0 rand (i + 1) vs
        = v :: vs
    rw [if_neg (not_lt.mpr (hr i)), ih (i + 1)]
    norm_num

theorem dropout_zero (rand : ℕ → ℚ) (hr : ∀ i, 0 ≤ rand i) (x : List ℚ) :
    dropout 0 true rand x = x := by
  simp [dropout, dropoutMask_zero rand hr 0 x]

/-- In evaluation mode dropout is the identity and consumes no randomness. -/
theorem dropout_eval (pr : ℚ) (rand : ℕ → ℚ) (x : List ℚ) :
    dropout pr false rand x = x := rfl

/-- C9 (dropout determinism).
With dropout probability 0, the training-mode and inference-mode forward
passes agree on every input, for every pair of valid stochastic streams —
so both are deterministic and identical.  With `p ∈ (0,1)`, inference-mode
forward passes ignore the stochastic stream entirely, so repeated calls
produce identical outputs. -/
theorem dropout_determinism (net : NetworkDropOut) (lsm : List ℚ → List ℚ)
    (x : List ℚ) (rand rand' : ℕ → ℕ → ℚ)
    (hr : ∀ k i, 0 ≤ rand k i)
    (hp0 : 0 < net.p) (hp1 : net.p < 1) (heval : net.training = false) :
    NetworkDropOut.forward { net with p := 0, training := true } lsm rand x
      = NetworkDropOut.forward { net with p := 0, training := false } lsm rand' x
    ∧ NetworkDropOut.forward net lsm rand x
      = NetworkDropOut.forward net lsm rand' x := by
  constructor
  · simp only [NetworkDropOut.forward, dropout_eval,
      dropout_zero (rand 0) (hr 0), dropout_zero (rand 1) (hr 1),
      dropout_zero (rand 2) (hr 2)]
  · have := hp0.trans hp1
    simp only [NetworkDropOut.forward, heval, dropout_eval]

/-- Witness for C9: a concrete one-unit-per-layer network with `p = 3/10`
in evaluation mode, `lsm = id`, and two distinct stochastic streams. -/
theorem dropout_determinism_witness :
    (∀ k i : ℕ, (0 : ℚ) ≤ (fun _ _ => (1/2 : ℚ)) k i)
    ∧ (0 : ℚ) < 3/10 ∧ (3/10 : ℚ) < 1
    ∧ (NetworkDropOut.forward
        { (⟨[[1]], [0], [[2]], [0], [[1]], [1], [[1]], [0], 3/10, false⟩ :
            NetworkDropOut) with p := 0, training := true }
        id (fun _ _ => 1/2) [1]
      = NetworkDropOut.forward
        { (⟨[[1]], [0], [[2]], [0], [[1]], [1], [[1]], [0], 3/10, false⟩ :
            NetworkDropOut) with p := 0, training := false }
        id (fun _ _ => 1/4) [1]
      ∧ NetworkDropOut.forward
        (⟨[[1]], [0], [[2]], [0], [[1]], [1], [[1]], [0], 3/10, false⟩ :
            NetworkDropOut) id (fun _ _ => 1/2) [1]
      = NetworkDropOut.forward
        (⟨[[1]], [0], [[2]], [0], [[1]], [1], [[1]], [0], 3/10, false⟩ :
            NetworkDropOut) id (fun _ _ => 1/4) [1]) :=
  ⟨fun _ _ => by norm_num, by norm_num, by norm_num,
    dropout_determinism _ id [1] (fun _ _ => 1/2) (fun _ _ => 1/4)
      (fun _ _ => by norm_num) (by norm_num) (by norm_num) rfl⟩

/-! ## The dropout training loop's validation phase (Part 5)

```
test_loss = 0
accuracy = 0
with torch.no_grad():
    model.eval()
    for test_images, test_labels in testloader:
        test_log_ps = model(test_images)
        top_p, top_class = torch.topk(test_log_ps, k=1)
        compare_prediction = top_class == test_labels.view(*top_class.shape)
        accuracy += torch.mean(compare_prediction.type(torch.FloatTensor))
        test_loss += criterion(test_log_ps, test_labels)
model.train()
```
The model state is its parameter tensors (with gradient buffers) and the
training/inference mode flag; the forward map takes the parameter data,
the mode flag and the stochastic dropout stream. -/

/-- A model as the validation loop sees it: parameter tensors (with their
gradient buffers) and the training/inference mode flag. -/
structure DModel where
  params : List Param
  training : Bool
  deriving DecidableEq, Repr

/-- `model.eval()`. -/
def modelEval (m : DModel) : DModel := { m with training := false }

/-- `model.train()`. -/
def modelTrain (m : DModel) : DModel := { m with training := true }

theorem modelEval_training (m : DModel) : (modelEval m).training = false := rfl

theorem modelEval_params (m : DModel) : (modelEval m).params = m.params := rfl

/-- The validation phase of the dropout training loop: `model.eval()`,
then one accumulating pass over the test batches (accuracy and loss, one
update each per batch), then `model.train()`.  `forward` maps parameter
data, mode flag, stochastic stream and a batch of images to
log-probabilities. -/
def dropoutValidationPhase
    (forward : List (List ℚ) → Bool → (ℕ → ℚ) → List (List ℚ) → List (List ℚ))
    (rand : ℕ → ℚ) (m : DModel) (batches : List Batch) : DModel × ℚ × ℚ :=
  let m1 := modelEval m
  let metrics := batches.foldl (fun acc b =>
      let logps := forward (paramDatas m1.params) m1.training rand b.images
      (acc.1 + batchAccuracy logps b.labels, acc.2 + nllLoss logps b.labels))
    ((0 : ℚ), (0 : ℚ))
  (modelTrain m1, metrics)

/-- C4 (mode toggling around validation).
For every incoming model state: the mode flag under which every validation
batch is evaluated is the inference mode (training = false); because
dropout is thereby disabled, the accumulated validation metrics are
independent of the stochastic dropout stream (this is the hypothesis `hf`,
proved for the dropout network in `dropout_eval`); and on exit the flag is
restored to training mode — the model leaves the phase exactly as
`model.train()` of the incoming model, on every exit. -/
theorem validation_mode_toggle
    (forward : List (List ℚ) → Bool → (ℕ → ℚ) → List (List ℚ) → List (List ℚ))
    (rand rand' : ℕ → ℚ) (m : DModel) (bs : List Batch)
    (hf : ∀ ds r r' imgs, forward ds false r imgs = forward ds false r' imgs) :
    (modelEval m).training = false
    ∧ (dropoutValidationPhase forward rand m bs).1 = modelTrain m
    ∧ (dropoutValidationPhase forward rand m bs).2
        = (dropoutValidationPhase forward rand' m bs).2 := by
  refine ⟨rfl, rfl, ?_⟩
  show bs.foldl _ ((0 : ℚ), (0 : ℚ)) = bs.foldl _ ((0 : ℚ), (0 : ℚ))
  apply List.foldl_ext
  intro acc b _
  simp only [modelEval_training, modelEval_params]
  rw [hf (paramDatas m.params) rand rand' b.images]

/-- Witness for C4: a one-layer dropout model (`p = 3/10`) on one concrete
batch, with two distinct stochastic streams; the forward map applies the
actual `dropout` module, whose evaluation mode discards the stream. -/
theorem validation_mode_toggle_witness :
    (∀ (ds : List (List ℚ)) (r r' : ℕ → ℚ) (imgs : List (List ℚ)),
      (fun (_ : List (List ℚ)) (mode : Bool) (r0 : ℕ → ℚ)
          (is : List (List ℚ)) => is.map (dropout (3/10) mode r0)) ds false r imgs
        = (fun (_ : List (List ℚ)) (mode : Bool) (r0 : ℕ → ℚ)
          (is : List (List ℚ)) => is.map (dropout (3/10) mode r0)) ds false r' imgs)
    ∧ ((modelEval ⟨[freshParam [1, 2]], true⟩).training = false
      ∧ (dropoutValidationPhase
          (fun _ mode r0 is => is.map (dropout (3/10) mode r0))
          (fun _ => 1/2) ⟨[freshParam [1, 2]], true⟩ [⟨[[1, 0]], [0]⟩]).1
        = modelTrain ⟨[freshParam [1, 2]], true⟩
      ∧ (dropoutValidationPhase
          (fun _ mode r0 is => is.map (dropout (3/10) mode r0))
          (fun _ => 1/2) ⟨[freshParam [1, 2]], true⟩ [⟨[[1, 0]], [0]⟩]).2
        = (dropoutValidationPhase
          (fun _ mode r0 is => is.map (dropout (3/10) mode r0))
          (fun _ => 1/4) ⟨[freshParam [1, 2]], true⟩ [⟨[[1, 0]], [0]⟩]).2) :=
  ⟨fun _ _ _ _ => rfl,
    validation_mode_toggle _ (fun _ => 1/2) (fun _ => 1/4)
      ⟨[freshParam [1, 2]], true⟩ [⟨[[1, 0]], [0]⟩] (fun _ _ _ _ => rfl)⟩

/-- Accumulating fold over batches, split into the two running metrics. -/
theorem foldl_pair_sum (f g : Batch → ℚ) (bs : List Batch) :
    ∀ a : ℚ × ℚ,
    bs.foldl (fun acc b => (acc.1 + f b, acc.2 + g b)) a
      = (a.1 + (bs.map f).sum, a.2 + (bs.map g).sum) := by
  induction bs with
  | nil => intro a; simp
  | cons b bs ih =>
    intro a
    simp only [List.foldl_cons, List.map_cons, List.sum_cons, ih]
    exact Prod.ext (by ring) (by ring)

/-- C5 (validation is a pure read).
Both validation loops leave every parameter tensor and every gradient
buffer exactly as they were: the first loop returns the parameter list
unchanged, and the dropout loop's exit model carries the incoming
parameters (buffers included) untouched.  The metrics are the only
output: the accumulated loss is the sum over batches of `nllLoss` applied
to the model's output — the same criterion the training step uses — and
the accumulated accuracy is the sum of the per-batch statistics; no
backward pass and no optimizer step occurs. -/
theorem validation_pure_read
    (forward0 : List (List ℚ) → List (List ℚ) → List (List ℚ))
    (forward : List (List ℚ) → Bool → (ℕ → ℚ) → List (List ℚ) → List (List ℚ))
    (rand : ℕ → ℚ) (ps : List Param) (m : DModel) (bs : List Batch) :
    (firstValidationLoop forward0 ps bs).1 = ps
    ∧ (dropoutValidationPhase forward rand m bs).1.params = m.params
    ∧ (dropoutValidationPhase forward rand m bs).2.2
        = (bs.map (fun b =>
            nllLoss (forward (paramDatas m.params) false rand b.images)
              b.labels)).sum
    ∧ (dropoutValidationPhase forward rand m bs).2.1
        = (bs.map (fun b =>
            batchAccuracy (forward (paramDatas m.params) false rand b.images)
              b.labels)).sum := by
  refine ⟨rfl, rfl, ?_, ?_⟩
  · simp only [dropoutValidationPhase, modelEval_training, modelEval_params]
    rw [foldl_pair_sum
      (fun b => batchAccuracy (forward (paramDatas m.params) false rand b.images)
        b.labels)
      (fun b => nllLoss (forward (paramDatas m.params) false rand b.images)
        b.labels) bs ((0 : ℚ), (0 : ℚ))]
    simp
  · simp only [dropoutValidationPhase, modelEval_training, modelEval_params]
    rw [foldl_pair_sum
      (fun b => batchAccuracy (forward (paramDatas m.params) false rand b.images)
        b.labels)
      (fun b => nllLoss (forward (paramDatas m.params) false rand b.images)
        b.labels) bs ((0 : ℚ), (0 : ℚ))]
    simp

/-! ## Tensor dtypes at the metric-averaging step (Part 5)

Part 5's markdown records the failure mode verbatim:
"If you try `torch.mean(equals)`, you'll get an error
`RuntimeError: mean is not implemented for type torch.ByteTensor`",
and the code therefore computes
`accuracy = torch.mean(equals.type(torch.FloatTensor))`.
Framework errors are embedded as `Except.error`; the exercise code contains
no handler, so an error in any stage propagates through the rest of the
cell (`Except.bind`). -/

/-- The tensor dtypes relevant to the metric-averaging step. -/
inductive TType
  | byteT
  | floatT
  deriving DecidableEq, Repr

/-- A dtype-tagged tensor. -/
structure TTensor where
  ttype : TType
  vals : List ℚ
  deriving DecidableEq, Repr

/-- `top_class == labels.view(*top_class.shape)`: the equality comparison
produces a byte-typed 0/1 tensor. -/
def eqComparison (preds labels : List ℕ) : TTensor :=
  ⟨.byteT, List.zipWith (fun p l => if p = l then 1 else 0) preds labels⟩

/-- `.type(torch.FloatTensor)`. -/
def typeFloat (t : TTensor) : TTensor := ⟨.floatT, t.vals⟩

/-- `torch.mean`: raises for byte tensors, averages float tensors. -/
def torchMean (t : TTensor) : Except String ℚ :=
  match t.ttype with
  | .byteT => .error "mean is not implemented for type torch.ByteTensor"
  | .floatT => .ok (t.vals.sum / t.vals.length)

/-- The accuracy cell of Part 5:
`accuracy = torch.mean(equals.type(torch.FloatTensor))`. -/
def accuracyCell (preds labels : List ℕ) : Except String ℚ :=
  torchMean (typeFloat (eqComparison preds labels))

/-- C8 (uncaught framework errors at the metric-averaging step).
Averaging the raw byte-typed comparison tensor raises; because no stage of
the cell catches errors, the error propagates through any continuation of
the cell and is fatal to it; and the code's actual computation converts
the comparison to float first, which always succeeds. -/
theorem byte_mean_error_propagates (preds labels : List ℕ) :
    torchMean (eqComparison preds labels)
      = Except.error "mean is not implemented for type torch.ByteTensor"
    ∧ (∀ k : ℚ → Except String ℚ,
      (torchMean (eqComparison preds labels)).bind k
        = Except.error "mean is not implemented for type torch.ByteTensor")
    ∧ ∃ q, accuracyCell preds labels = Except.ok q :=
  ⟨rfl, fun _ => rfl, _, rfl⟩

/-! ## The shape of the accuracy comparison (Part 5)

Part 5's markdown: "`top_class` is a 2D tensor with shape `(64, 1)` while
`labels` is 1D with shape `(64)` … If we do `equals = top_class == labels`,
`equals` will have shape `(64, 64)`"; every accuracy computation in the
code therefore compares against `labels.view(*top_class.shape)`. -/

/-- `ps.topk(1, dim=1)` indices: the `(N, 1)` tensor of top-1 classes, one
singleton row per example. -/
def topClassColumn (logps : List (List ℚ)) : List (List ℕ) :=
  logps.map (fun row => [argTop1 row])

/-- `labels.view(*top_class.shape)`: the labels reshaped to `(N, 1)`. -/
def labelsViewColumn (labels : List ℕ) : List (List ℕ) :=
  labels.map (fun l => [l])

/-- Elementwise `==` of two same-shape 2-D tensors. -/
def eqSameShape (a b : List (List ℕ)) : List (List Bool) :=
  List.zipWith (fun ra rb => List.zipWith (fun x y => x == y) ra rb) a b

/-- `top_class == labels` *without* the reshape: the `(N, 1)` tensor
broadcasts against the `(N,)` tensor, giving the `(N, N)` tensor
`out[i][j] = top_class[i][0] == labels[j]`. -/
def eqBroadcast (a : List (List ℕ)) (labels : List ℕ) : List (List Bool) :=
  a.map (fun ra => labels.map (fun l => ra.getD 0 0 == l))

/-- `torch.mean` of the float conversion of a 2-D comparison tensor. -/
def meanBool2 (rows : List (List Bool)) : ℚ :=
  ((rows.map (fun r => (r.map boolInd).sum)).sum) / ((rows.map List.length).sum)

/-- The reshaped comparison is the per-example comparison, one singleton
row per example. -/
theorem eqSameShape_view (logps : List (List ℚ)) (labels : List ℕ) :
    eqSameShape (topClassColumn logps) (labelsViewColumn labels)
      = (comparePredictions logps labels).map (fun b => [b]) := by
  unfold eqSameShape topClassColumn labelsViewColumn comparePredictions
  induction logps generalizing labels with
  | nil => rfl
  | cons row rows ih =>
    cases labels with
    | nil => rfl
    | cons l ls => simpa using ih ls

theorem sum_map_one (c : List Bool) : (c.map (fun _ => (1 : ℕ))).sum = c.length := by
  induction c with
  | nil => rfl
  | cons x xs ih => simp [ih, Nat.add_comm]

theorem meanBool2_singletons (c : List Bool) :
    meanBool2 (c.map (fun b => [b])) = (c.map boolInd).sum / c.length := by
  unfold meanBool2
  rw [List.map_map, List.map_map]
  have h1 : c.map ((fun r => (List.map boolInd r).sum) ∘ fun b => [b])
      = c.map boolInd := by
    apply List.map_congr_left
    intro b _
    simp [Function.comp]
  have h2 : (c.map (List.length ∘ fun b => [b])).sum = c.length := by
    have hc : c.map (List.length ∘ fun b => [b]) = c.map (fun _ => 1) := by
      apply List.map_congr_left
      intro b _
      rfl
    rw [hc, sum_map_one]
  rw [h1, h2]

/-- C10 (shape invariant of the accuracy comparison).
For a batch of `N` examples (`logps.length = labels.length = N`):
the comparison taken after reshaping the labels to the `(N, 1)` shape of
`top_class` is the `(N, 1)` tensor of per-example matches, and the
embedded accuracy statistic is exactly its mean; whereas comparing without
the reshape broadcasts to an `(N, N)` tensor.  At the concrete batch
`logps = [[0,1],[1,0]]`, `labels = [1,0]`, the reshaped mean is `1` while
the broadcast mean is `1/2` — a wrong accuracy. -/
theorem accuracy_comparison_shape (logps : List (List ℚ)) (labels : List ℕ)
    (hN : logps.length = labels.length) :
    eqSameShape (topClassColumn logps) (labelsViewColumn labels)
      = (comparePredictions logps labels).map (fun b => [b])
    ∧ (eqSameShape (topClassColumn logps) (labelsViewColumn labels)).length
        = logps.length
    ∧ (∀ r ∈ eqSameShape (topClassColumn logps) (labelsViewColumn labels),
        r.length = 1)
    ∧ (eqBroadcast (topClassColumn logps) labels).length = logps.length
    ∧ (∀ r ∈ eqBroadcast (topClassColumn logps) labels,
        r.length = labels.length)
    ∧ batchAccuracy logps labels
        = meanBool2 (eqSameShape (topClassColumn logps) (labelsViewColumn labels))
    ∧ meanBool2 (eqSameShape (topClassColumn [[0, 1], [1, 0]])
        (labelsViewColumn [1, 0])) = 1
    ∧ meanBool2 (eqBroadcast (topClassColumn [[0, 1], [1, 0]]) [1, 0]) = 1 / 2 := by
  have hview := eqSameShape_view logps labels
  have hclen : (comparePredictions logps labels).length = logps.length := by
    unfold comparePredictions
    rw [List.length_zipWith, hN, min_self]
  refine ⟨hview, ?_, ?_, ?_, ?_, ?_, ?_, ?_⟩
  · rw [hview, List.length_map, hclen]
  · rw [hview]
    intro r hr
    obtain ⟨b, _, rfl⟩ := List.mem_map.mp hr
    rfl
  · unfold eqBroadcast topClassColumn
    rw [List.length_map, List.length_map]
  · unfold eqBroadcast
    intro r hr
    obtain ⟨ra, _, rfl⟩ := List.mem_map.mp hr
    exact List.length_map labels _
  · rw [hview, meanBool2_singletons]
    rfl
  · norm_num [meanBool2, eqSameShape, topClassColumn, labelsViewColumn,
      argTop1, maxVal, boolInd]
  · norm_num [meanBool2, eqBroadcast, topClassColumn, argTop1, maxVal, boolInd]

/-- Witness for C10 at the concrete batch `logps = [[0,1],[1,0]]`,
`labels = [1,0]`. -/
theorem accuracy_comparison_shape_witness :
    ([[(0 : ℚ), 1], [1, 0]].length = [1, 0].length)
    ∧ batchAccuracy [[(0 : ℚ), 1], [1, 0]] [1, 0]
        = meanBool2 (eqSameShape (topClassColumn [[(0 : ℚ), 1], [1, 0]])
            (labelsViewColumn [1, 0])) :=
  ⟨rfl, (accuracy_comparison_shape [[0, 1], [1, 0]] [1, 0] rfl).2.2.2.2.2.1⟩

end NotebookSpec
